import Mathlib

/-!
# xidle: query the X screen-saver extension for the idle time and print it

A shallow embedding of `src/xidle.c`.  The program is one function, `main`,
which calls five Xlib collaborators and two stdio functions.  The
collaborators are external, so their results are taken from a `World`
record (one field per value the environment hands back to `main`); every
call `main` makes is appended to a trace, together with its arguments, and
the two output streams are kept as strings.
-/

namespace Xidle

/-- A C pointer value; `NULL` is 0. -/
abbrev Ptr := Nat

/-- The null pointer. -/
def NULL : Ptr := 0

/-- Width of `unsigned long` in bits (LP64). -/
def ULONG_BITS : Nat := 64

/-- What the environment answers during one run of `main`. -/
structure World where
  /-- value returned by `XOpenDisplay(NULL)` -/
  display : Ptr
  /-- value returned by `XScreenSaverAllocInfo()` -/
  info : Ptr
  /-- value of `DefaultRootWindow(display)` -/
  root : Nat
  /-- value returned by `XScreenSaverQueryInfo` (a `Status`; 0 is failure) -/
  status : Int
  /-- content of `info->idle` when it is read -/
  idle : Nat
deriving Repr

/-- One observable action of `main`, with the arguments it passes. -/
inductive Event where
  | XOpenDisplay (name : Ptr) (ret : Ptr)
  | XScreenSaverAllocInfo (ret : Ptr)
  | DefaultRootWindow (display : Ptr)
  | XScreenSaverQueryInfo (display : Ptr) (drawable : Nat) (info : Ptr) (ret : Int)
  | readIdle (info : Ptr)
  | fprintf_stderr (text : String)
  | printf (text : String)
  | XFree (p : Ptr)
  | XCloseDisplay (display : Ptr)
deriving DecidableEq, Repr

/-- Process state: the two output streams and the trace of actions so far. -/
structure Proc where
  stdout : String
  stderr : String
  trace : List Event
deriving DecidableEq, Repr

/-- State of the process when `main` is entered. -/
def Proc.init : Proc := ⟨"", "", []⟩

/-- Append one event to the trace. -/
def Proc.log (s : Proc) (e : Event) : Proc :=
  ⟨s.stdout, s.stderr, s.trace ++ [e]⟩

/-! ## The collaborators -/

/-- `XOpenDisplay(name)`: returns the connection handle, or NULL. -/
def XOpenDisplay (w : World) (name : Ptr) (s : Proc) : Ptr × Proc :=
  (w.display, s.log (.XOpenDisplay name w.display))

/-- `XScreenSaverAllocInfo()`: returns the info record, or NULL. -/
def XScreenSaverAllocInfo (w : World) (s : Proc) : Ptr × Proc :=
  (w.info, s.log (.XScreenSaverAllocInfo w.info))

/-- `DefaultRootWindow(display)`: reads the root window out of the display. -/
def DefaultRootWindow (w : World) (display : Ptr) (s : Proc) : Nat × Proc :=
  (w.root, s.log (.DefaultRootWindow display))

/-- `XScreenSaverQueryInfo(display, drawable, info)`: returns a `Status`. -/
def XScreenSaverQueryInfo (w : World) (display : Ptr) (drawable : Nat) (info : Ptr)
    (s : Proc) : Int × Proc :=
  (w.status, s.log (.XScreenSaverQueryInfo display drawable info w.status))

/-- `info->idle`: an `unsigned long` field, so its value is below `2 ^ 64`. -/
def readIdle (w : World) (info : Ptr) (s : Proc) : Nat × Proc :=
  (w.idle % 2 ^ ULONG_BITS, s.log (.readIdle info))

/-- `XFree(p)`. -/
def XFree (p : Ptr) (s : Proc) : Proc :=
  s.log (.XFree p)

/-- `XCloseDisplay(display)`. -/
def XCloseDisplay (display : Ptr) (s : Proc) : Proc :=
  s.log (.XCloseDisplay display)

/-! ## stdio -/

/-- `fprintf(stderr, text)` for a format string without conversions. -/
def fprintf_stderr (text : String) (s : Proc) : Proc :=
  ⟨s.stdout, s.stderr ++ text, s.trace ++ [.fprintf_stderr text]⟩

/-- The character of the decimal digit `d`. -/
def digitChar (d : Nat) : Char := Char.ofNat (48 + d)

/-- Decimal conversion as a C library does it: the least significant digit is
produced first and placed in front of what is already there, until the
quotient is zero.  `fuel` bounds the number of digits. -/
def utoa : Nat → Nat → List Char → List Char
  | 0, _, acc => acc
  | fuel + 1, v, acc =>
      if v / 10 = 0 then digitChar (v % 10) :: acc
      else utoa fuel (v / 10) (digitChar (v % 10) :: acc)

/-- The text `%lu` produces for an `unsigned long` argument: at most 20 digits. -/
def fmt_lu (v : Nat) : String :=
  String.mk (utoa 20 (v % 2 ^ ULONG_BITS) [])

/-- `printf("%lu\n", v)`. -/
def printf_lu (v : Nat) (s : Proc) : Proc :=
  let text := fmt_lu v ++ "\n"
  ⟨s.stdout ++ text, s.stderr, s.trace ++ [.printf text]⟩

/-! ## The program -/

/-- `main` of `src/xidle.c`: returns the exit code and the final process state. -/
def main (w : World) : Int × Proc :=
  let (display, s) := XOpenDisplay w NULL Proc.init
  if display = NULL then
    let s := fprintf_stderr "Unable to open X display\n" s
    (1, s)
  else
    let (info, s) := XScreenSaverAllocInfo w s
    if info = NULL then
      let s := fprintf_stderr "Unable to allocate XScreenSaverInfo\n" s
      let s := XCloseDisplay display s
      (1, s)
    else
      let (root, s) := DefaultRootWindow w display s
      let (status, s) := XScreenSaverQueryInfo w display root info s
      if status = 0 then
        let s := fprintf_stderr "XScreenSaverQueryInfo failed\n" s
        let s := XFree info s
        let s := XCloseDisplay display s
        (1, s)
      else
        let (idle, s) := readIdle w info s
        let s := printf_lu idle s
        let s := XFree info s
        let s := XCloseDisplay display s
        (0, s)

/-! ## Vocabulary of the properties -/

/-- Value of a string of decimal digits, read left to right. -/
def parseDec (cs : List Char) : Nat :=
  cs.foldl (fun a c => 10 * a + (c.toNat - 48)) 0

/-- The list `cs` is the decimal numeral of `n`: not empty, digits only, of
value `n`, and starting with `0` only when it is the single digit `0`. -/
def IsDecimalNumeralOf (n : Nat) (cs : List Char) : Prop :=
  cs ≠ [] ∧ (∀ c ∈ cs, c.isDigit = true) ∧ parseDec cs = n ∧
    (cs.head? = some '0' → cs = ['0'])

/-- The string matches `^[0-9]+\n$`: one or more digits, then a newline, then
nothing. -/
def matchesDigitsNewline (s : String) : Bool :=
  match s.data.reverse with
  | '\n' :: r => !r.isEmpty && r.all Char.isDigit
  | _ => false

/-- The string is exactly one newline-terminated line. -/
def isOneLine (s : String) : Bool :=
  s.data.getLast? == some '\n' && s.data.count '\n' == 1

/-- Parse one line of standard output as a decimal number: the line is one or
more digits followed by a newline. -/
def parseLine (s : String) : Option Nat :=
  match s.data.reverse with
  | '\n' :: r => if !r.isEmpty && r.all Char.isDigit then some (parseDec r.reverse) else none
  | _ => none

/-- The event releases a resource. -/
def Event.isRelease : Event → Bool
  | .XFree _ => true
  | .XCloseDisplay _ => true
  | _ => false

/-- The releases of a trace, in order. -/
def releases (t : List Event) : List Event := t.filter Event.isRelease

/-- The releases a trace owes: one `XCloseDisplay` per display that was
opened, one `XFree` per info record that was allocated. -/
def owed : List Event → List Event
  | [] => []
  | .XOpenDisplay _ ret :: t => if ret = NULL then owed t else .XCloseDisplay ret :: owed t
  | .XScreenSaverAllocInfo ret :: t => if ret = NULL then owed t else .XFree ret :: owed t
  | _ :: t => owed t

/-- The three acquisition and query operations. -/
inductive Op where
  | open
  | alloc
  | query
deriving DecidableEq, Repr

/-- The acquisition and query operations of a trace, in order. -/
def ops : List Event → List Op
  | [] => []
  | .XOpenDisplay _ _ :: t => .open :: ops t
  | .XScreenSaverAllocInfo _ :: t => .alloc :: ops t
  | .XScreenSaverQueryInfo _ _ _ _ :: t => .query :: ops t
  | _ :: t => ops t

/-- Every query of the trace is passed a non-NULL display and a non-NULL info
record. -/
def queriesWellFormed : List Event → Bool
  | [] => true
  | .XScreenSaverQueryInfo d _ p _ :: t => d != NULL && p != NULL && queriesWellFormed t
  | _ :: t => queriesWellFormed t

/-- The event hands display `d` to a collaborator. -/
def Event.usesDisplay (d : Ptr) : Event → Bool
  | .DefaultRootWindow x => x == d
  | .XScreenSaverQueryInfo x _ _ _ => x == d
  | .XCloseDisplay x => x == d
  | _ => false

/-- The event reads, or hands to a collaborator, the info record `p`. -/
def Event.usesInfo (p : Ptr) : Event → Bool
  | .XScreenSaverQueryInfo _ _ x _ => x == p
  | .readIdle x => x == p
  | .XFree x => x == p
  | _ => false

/-- No event after a release uses the released resource. -/
def noUseAfterRelease : List Event → Bool
  | [] => true
  | .XCloseDisplay d :: t => t.all (fun e => !e.usesDisplay d) && noUseAfterRelease t
  | .XFree p :: t => t.all (fun e => !e.usesInfo p) && noUseAfterRelease t
  | _ :: t => noUseAfterRelease t

/-- Event `a` occurs in the trace, and `b` occurs somewhere after its first
occurrence. -/
def occursBefore (a b : Event) : List Event → Bool
  | [] => false
  | e :: t => if e = a then decide (b ∈ t) else occursBefore a b t

/-! ## What `main` does on each of its four paths -/

theorem main_open_fail (w : World) (hd : w.display = NULL) :
    main w = (1, ⟨"", "Unable to open X display\n",
      [.XOpenDisplay NULL NULL, .fprintf_stderr "Unable to open X display\n"]⟩) := by
  simp [main, XOpenDisplay, fprintf_stderr, Proc.init, Proc.log, hd]

theorem main_alloc_fail (w : World) (hd : w.display ≠ NULL) (hi : w.info = NULL) :
    main w = (1, ⟨"", "Unable to allocate XScreenSaverInfo\n",
      [.XOpenDisplay NULL w.display, .XScreenSaverAllocInfo NULL,
       .fprintf_stderr "Unable to allocate XScreenSaverInfo\n",
       .XCloseDisplay w.display]⟩) := by
  simp [main, XOpenDisplay, XScreenSaverAllocInfo, XCloseDisplay, fprintf_stderr,
    Proc.init, Proc.log, hd, hi]

theorem main_query_fail (w : World) (hd : w.display ≠ NULL) (hi : w.info ≠ NULL)
    (hq : w.status = 0) :
    main w = (1, ⟨"", "XScreenSaverQueryInfo failed\n",
      [.XOpenDisplay NULL w.display, .XScreenSaverAllocInfo w.info,
       .DefaultRootWindow w.display,
       .XScreenSaverQueryInfo w.display w.root w.info 0,
       .fprintf_stderr "XScreenSaverQueryInfo failed\n",
       .XFree w.info, .XCloseDisplay w.display]⟩) := by
  simp [main, XOpenDisplay, XScreenSaverAllocInfo, DefaultRootWindow, XScreenSaverQueryInfo,
    XFree, XCloseDisplay, fprintf_stderr, Proc.init, Proc.log, hd, hi, hq]

theorem main_success (w : World) (hd : w.display ≠ NULL) (hi : w.info ≠ NULL)
    (hq : w.status ≠ 0) :
    main w = (0, ⟨fmt_lu (w.idle % 2 ^ ULONG_BITS) ++ "\n", "",
      [.XOpenDisplay NULL w.display, .XScreenSaverAllocInfo w.info,
       .DefaultRootWindow w.display,
       .XScreenSaverQueryInfo w.display w.root w.info w.status,
       .readIdle w.info,
       .printf (fmt_lu (w.idle % 2 ^ ULONG_BITS) ++ "\n"),
       .XFree w.info, .XCloseDisplay w.display]⟩) := by
  simp [main, XOpenDisplay, XScreenSaverAllocInfo, DefaultRootWindow, XScreenSaverQueryInfo,
    readIdle, printf_lu, XFree, XCloseDisplay, Proc.init, Proc.log, hd, hi, hq]

/-! ## The decimal conversion -/

theorem digitChar_isDigit (d : Nat) (h : d < 10) : (digitChar d).isDigit = true := by
  interval_cases d <;> decide

theorem digitChar_toNat (d : Nat) (h : d < 10) : (digitChar d).toNat - 48 = d := by
  interval_cases d <;> decide

theorem digitChar_eq_zero (d : Nat) (h : d < 10) (hc : digitChar d = '0') : d = 0 := by
  interval_cases d
  · rfl
  all_goals exact absurd hc (by decide)

theorem parseDec_snoc (ds : List Char) (c : Char) :
    parseDec (ds ++ [c]) = 10 * parseDec ds + (c.toNat - 48) := by
  simp [parseDec, List.foldl_append]

/-- With enough fuel, `utoa` puts the decimal numeral of `v` in front of `acc`. -/
theorem utoa_spec : ∀ (fuel v : Nat) (acc : List Char), v < 10 ^ fuel → 0 < fuel →
    ∃ ds, utoa fuel v acc = ds ++ acc ∧ IsDecimalNumeralOf v ds := by
  intro fuel
  induction fuel with
  | zero => intro v acc _ h0; exact absurd h0 (by decide)
  | succ k ih =>
    intro v acc hv _
    have hmod : v % 10 < 10 := Nat.mod_lt _ (by decide)
    by_cases hq : v / 10 = 0
    · have hv10 : v % 10 = v := by omega
      refine ⟨[digitChar (v % 10)], by simp [utoa, hq], by simp, ?_, ?_, ?_⟩
      · intro c hc
        simp only [List.mem_singleton] at hc
        rw [hc]; exact digitChar_isDigit _ hmod
      · have := parseDec_snoc [] (digitChar (v % 10))
        simp only [List.nil_append] at this
        rw [this, digitChar_toNat _ hmod]
        simp [parseDec, hv10]
      · intro hh
        simp only [List.head?_cons, Option.some.injEq] at hh
        have h0 := digitChar_eq_zero _ hmod hh
        rw [h0]; rfl
    · have hk : 0 < k := by
        rcases Nat.eq_zero_or_pos k with h | h
        · subst h; omega
        · exact h
      have hlt : v / 10 < 10 ^ k := by
        rw [Nat.div_lt_iff_lt_mul (by decide)]
        rw [pow_succ] at hv; exact hv
      obtain ⟨ds, hds, hne, hdig, hval, hhead⟩ := ih (v / 10) (digitChar (v % 10) :: acc) hlt hk
      refine ⟨ds ++ [digitChar (v % 10)], ?_, by simp, ?_, ?_, ?_⟩
      · simp [utoa, hq, hds]
      · intro c hc
        rcases List.mem_append.mp hc with h | h
        · exact hdig c h
        · simp only [List.mem_singleton] at h
          rw [h]; exact digitChar_isDigit _ hmod
      · rw [parseDec_snoc, hval, digitChar_toNat _ hmod]; omega
      · intro hh
        exfalso
        cases ds with
        | nil => exact hne rfl
        | cons a t =>
          simp only [List.cons_append, List.head?_cons] at hh
          have := hhead hh
          rw [this] at hval
          exact hq (by rw [← hval]; rfl)

/-- The text of `%lu` is the decimal numeral of its argument. -/
theorem fmt_lu_spec (n : Nat) (hn : n < 2 ^ ULONG_BITS) :
    IsDecimalNumeralOf n (fmt_lu n).data := by
  have hlt : n < 10 ^ 20 := lt_trans hn (by norm_num [ULONG_BITS])
  obtain ⟨ds, hds, hnum⟩ := utoa_spec 20 n [] hlt (by decide)
  have : (fmt_lu n).data = ds := by
    simp [fmt_lu, Nat.mod_eq_of_lt hn, hds]
  rw [this]; exact hnum

theorem data_append_newline (s : String) : (s ++ "\n").data = s.data ++ ['\n'] := by
  simp [String.data_append]

theorem isDigit_ne_newline (c : Char) (h : c.isDigit = true) : c ≠ '\n' := by
  intro hc; rw [hc] at h; exact absurd h (by decide)

theorem matches_of_numeral (n : Nat) (ds : List Char) (s : String)
    (hnum : IsDecimalNumeralOf n ds) (hs : s.data = ds ++ ['\n']) :
    matchesDigitsNewline s = true := by
  obtain ⟨hne, hdig, _, _⟩ := hnum
  simp [matchesDigitsNewline, hs, hne]
  exact hdig

theorem parseLine_of_numeral (n : Nat) (ds : List Char) (s : String)
    (hnum : IsDecimalNumeralOf n ds) (hs : s.data = ds ++ ['\n']) :
    parseLine s = some n := by
  obtain ⟨hne, hdig, hval, _⟩ := hnum
  have hall : ∀ c ∈ ds, c.isDigit = true := hdig
  simp [parseLine, hs, hne, hval]
  exact hall

theorem isOneLine_of_numeral (n : Nat) (ds : List Char) (s : String)
    (hnum : IsDecimalNumeralOf n ds) (hs : s.data = ds ++ ['\n']) :
    isOneLine s = true := by
  obtain ⟨_, hdig, _, _⟩ := hnum
  have hcount : ds.count '\n' = 0 := by
    rw [List.count_eq_zero]
    intro hmem
    exact isDigit_ne_newline _ (hdig _ hmem) rfl
  simp [isOneLine, hs, List.count_append, hcount]

/-! ## The claims -/

/-- C1: when the display opens, the info record is allocated and the query
succeeds with idle value `w.idle` below `2 ^ 64`, standard output is the
decimal numeral of that value (digits only, no leading zero unless the value
is 0, nothing truncated) followed by one newline, so it matches
`^[0-9]+\n$`; standard error is empty and the exit code is 0. -/
theorem C1_success_prints_idle (w : World) (hd : w.display ≠ NULL) (hi : w.info ≠ NULL)
    (hq : w.status ≠ 0) (hn : w.idle < 2 ^ ULONG_BITS) :
    (∃ ds, IsDecimalNumeralOf w.idle ds ∧ (main w).2.stdout.data = ds ++ ['\n']) ∧
    matchesDigitsNewline (main w).2.stdout = true ∧
    (main w).2.stderr = "" ∧ (main w).1 = 0 := by
  have hnum := fmt_lu_spec w.idle hn
  have hout : (main w).2.stdout.data = (fmt_lu w.idle).data ++ ['\n'] := by
    rw [main_success w hd hi hq, Nat.mod_eq_of_lt hn]
    exact data_append_newline _
  refine ⟨⟨_, hnum, hout⟩, matches_of_numeral _ _ _ hnum hout, ?_, ?_⟩
  · rw [main_success w hd hi hq]
  · rw [main_success w hd hi hq]

theorem C1_success_prints_idle_witness :
    (main ⟨5, 6, 7, 1, 12345⟩).2.stdout = "12345\n" ∧
    ((∃ ds, IsDecimalNumeralOf 12345 ds ∧
        (main ⟨5, 6, 7, 1, 12345⟩).2.stdout.data = ds ++ ['\n']) ∧
      matchesDigitsNewline (main ⟨5, 6, 7, 1, 12345⟩).2.stdout = true ∧
      (main ⟨5, 6, 7, 1, 12345⟩).2.stderr = "" ∧ (main ⟨5, 6, 7, 1, 12345⟩).1 = 0) :=
  ⟨by decide,
   C1_success_prints_idle ⟨5, 6, 7, 1, 12345⟩ (by decide) (by decide) (by decide) (by decide)⟩

/-- C2: when `XOpenDisplay` returns NULL, the exit code is 1, standard error
is exactly "Unable to open X display" followed by a newline, and standard
output is empty. -/
theorem C2_open_failure (w : World) (hd : w.display = NULL) :
    (main w).1 = 1 ∧ (main w).2.stderr = "Unable to open X display\n" ∧
    (main w).2.stdout = "" := by
  rw [main_open_fail w hd]
  exact ⟨rfl, rfl, rfl⟩

theorem C2_open_failure_witness :
    (0 : Ptr) = NULL ∧ (main ⟨0, 6, 7, 1, 42⟩).1 = 1 ∧
    (main ⟨0, 6, 7, 1, 42⟩).2.stderr = "Unable to open X display\n" ∧
    (main ⟨0, 6, 7, 1, 42⟩).2.stdout = "" :=
  ⟨rfl, C2_open_failure ⟨0, 6, 7, 1, 42⟩ rfl⟩

/-- C3: when the display opens and the info record is allocated but
`XScreenSaverQueryInfo` returns 0, the exit code is 1, standard error is
"XScreenSaverQueryInfo failed" followed by a newline, and standard output is
empty, whatever the idle field holds. -/
theorem C3_query_failure (w : World) (hd : w.display ≠ NULL) (hi : w.info ≠ NULL)
    (hq : w.status = 0) :
    (main w).1 = 1 ∧ (main w).2.stderr = "XScreenSaverQueryInfo failed\n" ∧
    (main w).2.stdout = "" := by
  rw [main_query_fail w hd hi hq]
  exact ⟨rfl, rfl, rfl⟩

theorem C3_query_failure_witness :
    (main ⟨5, 6, 7, 0, 987654321⟩).1 = 1 ∧
    (main ⟨5, 6, 7, 0, 987654321⟩).2.stderr = "XScreenSaverQueryInfo failed\n" ∧
    (main ⟨5, 6, 7, 0, 987654321⟩).2.stdout = "" :=
  C3_query_failure ⟨5, 6, 7, 0, 987654321⟩ (by decide) (by decide) rfl

/-- C4, as stated, fails: with the display open and the allocation failing,
standard error is not "unable to allocate query-result handle" followed by a
newline. -/
theorem C4_stated_diagnostic_refuted :
    (⟨5, 0, 7, 1, 42⟩ : World).display ≠ NULL ∧ (⟨5, 0, 7, 1, 42⟩ : World).info = NULL ∧
    (main ⟨5, 0, 7, 1, 42⟩).2.stderr ≠ "unable to allocate query-result handle\n" ∧
    (main ⟨5, 0, 7, 1, 42⟩).2.stderr = "Unable to allocate XScreenSaverInfo\n" := by
  decide

/-- C4, amended: when the display opens but `XScreenSaverAllocInfo` returns
NULL, the program writes "Unable to allocate XScreenSaverInfo" followed by a
newline to standard error (and nothing to standard output), closes the
display connection, and exits with code 1. -/
theorem C4_alloc_failure (w : World) (hd : w.display ≠ NULL) (hi : w.info = NULL) :
    (main w).2.stderr = "Unable to allocate XScreenSaverInfo\n" ∧
    (main w).2.stdout = "" ∧
    releases (main w).2.trace = [.XCloseDisplay w.display] ∧
    (main w).1 = 1 := by
  rw [main_alloc_fail w hd hi]
  exact ⟨rfl, rfl, by simp [releases, Event.isRelease], rfl⟩

theorem C4_alloc_failure_witness :
    (main ⟨5, 0, 7, 1, 42⟩).2.stderr = "Unable to allocate XScreenSaverInfo\n" ∧
    (main ⟨5, 0, 7, 1, 42⟩).2.stdout = "" ∧
    releases (main ⟨5, 0, 7, 1, 42⟩).2.trace = [.XCloseDisplay 5] ∧
    (main ⟨5, 0, 7, 1, 42⟩).1 = 1 :=
  C4_alloc_failure ⟨5, 0, 7, 1, 42⟩ (by decide) rfl

/-- C5: the exit code of `main` is 0 or 1, and it is 0 exactly when opening
the display, allocating the info record and the query all succeed; any
failure gives 1. -/
theorem C5_exit_code (w : World) :
    ((main w).1 = 0 ∨ (main w).1 = 1) ∧
    ((main w).1 = 0 ↔ (w.display ≠ NULL ∧ w.info ≠ NULL ∧ w.status ≠ 0)) ∧
    (main w).1 = (if w.display ≠ NULL ∧ w.info ≠ NULL ∧ w.status ≠ 0 then 0 else 1) := by
  by_cases hd : w.display = NULL
  · rw [main_open_fail w hd]; simp [hd]
  · by_cases hi : w.info = NULL
    · rw [main_alloc_fail w hd hi]; simp [hi]
    · by_cases hq : w.status = 0
      · rw [main_query_fail w hd hi hq]; simp [hq]
      · rw [main_success w hd hi hq]; simp [hd, hi, hq]

/-- C6: on every path of `main` the releases performed are exactly those of
the resources acquired, each once: none after a failed open,
`XCloseDisplay(display)` alone after a failed allocation, and `XFree(info)`
then `XCloseDisplay(display)` after a failed query and on success. -/
theorem C6_releases (w : World) :
    releases (main w).2.trace =
      (if w.display = NULL then []
       else if w.info = NULL then [.XCloseDisplay w.display]
       else [.XFree w.info, .XCloseDisplay w.display]) ∧
    List.Perm (releases (main w).2.trace) (owed (main w).2.trace) := by
  by_cases hd : w.display = NULL
  · rw [main_open_fail w hd]; simp [hd, releases, Event.isRelease, owed]
  · by_cases hi : w.info = NULL
    · rw [main_alloc_fail w hd hi]; simp [hd, hi, releases, Event.isRelease, owed]
    · by_cases hq : w.status = 0
      · rw [main_query_fail w hd hi hq]
        simp [hd, hi, releases, Event.isRelease, owed]
        exact List.Perm.swap _ _ _
      · rw [main_success w hd hi hq]
        simp [hd, hi, releases, Event.isRelease, owed]
        exact List.Perm.swap _ _ _

/-- C7: exactly one of the two streams is written.  On a failure standard
error holds exactly one newline-terminated line, the fixed diagnostic of the
step that failed, and standard output is empty; on success standard output
holds exactly one line and standard error is empty. -/
theorem C7_one_stream (w : World) :
    (if w.display ≠ NULL ∧ w.info ≠ NULL ∧ w.status ≠ 0 then
      isOneLine (main w).2.stdout = true ∧ (main w).2.stderr = ""
    else
      (main w).2.stdout = "" ∧ isOneLine (main w).2.stderr = true ∧
      (main w).2.stderr =
        (if w.display = NULL then "Unable to open X display\n"
         else if w.info = NULL then "Unable to allocate XScreenSaverInfo\n"
         else "XScreenSaverQueryInfo failed\n")) ∧
    ((main w).2.stdout = "" ↔ (main w).2.stderr ≠ "") := by
  by_cases hd : w.display = NULL
  · rw [main_open_fail w hd]; simp [hd]; decide
  · by_cases hi : w.info = NULL
    · rw [main_alloc_fail w hd hi]; simp [hd, hi]; decide
    · by_cases hq : w.status = 0
      · rw [main_query_fail w hd hi hq]; simp [hd, hi, hq]; decide
      · have hlt : w.idle % 2 ^ ULONG_BITS < 2 ^ ULONG_BITS := Nat.mod_lt _ (by decide)
        have hnum := fmt_lu_spec _ hlt
        have hline := isOneLine_of_numeral _ _ _ hnum (data_append_newline _)
        rw [main_success w hd hi hq]
        simp only [hline, if_pos (And.intro hd (And.intro hi hq))]
        refine ⟨⟨trivial, trivial⟩, ?_⟩
        constructor
        · intro h
          have hdata := congrArg String.data h
          rw [data_append_newline] at hdata
          simp at hdata
        · intro h; exact absurd rfl h

/-- C8: the acquisition and query operations happen at most once each, in
the order open, allocate, query, and a failure ends the sequence: after a
failed open nothing more is called, after a failed allocation the query is
not called, and every query is passed a non-NULL display and a non-NULL info
record. -/
theorem C8_call_order (w : World) :
    ops (main w).2.trace =
      (if w.display = NULL then [.open]
       else if w.info = NULL then [.open, .alloc]
       else [.open, .alloc, .query]) ∧
    (ops (main w).2.trace).Nodup ∧
    List.Sublist (ops (main w).2.trace) [.open, .alloc, .query] ∧
    queriesWellFormed (main w).2.trace = true := by
  by_cases hd : w.display = NULL
  · rw [main_open_fail w hd]; simp [hd, ops, queriesWellFormed]
  · by_cases hi : w.info = NULL
    · rw [main_alloc_fail w hd hi]; simp [hd, hi, ops, queriesWellFormed]
    · by_cases hq : w.status = 0
      · rw [main_query_fail w hd hi hq]; simp [hd, hi, ops, queriesWellFormed]
      · rw [main_success w hd hi hq]; simp [hd, hi, ops, queriesWellFormed]

/-- C9: the printed value is a faithful function of the idle field alone.
For two successful runs with idle values `a ≤ b` (both below `2 ^ 64`),
parsing the two output lines as decimal numbers gives exactly `a` and `b`;
equal idle values give equal outputs and equal outputs come only from equal
idle values. -/
theorem C9_output_faithful (wa wb : World)
    (hda : wa.display ≠ NULL) (hia : wa.info ≠ NULL) (hqa : wa.status ≠ 0)
    (hdb : wb.display ≠ NULL) (hib : wb.info ≠ NULL) (hqb : wb.status ≠ 0)
    (ha : wa.idle < 2 ^ ULONG_BITS) (hb : wb.idle < 2 ^ ULONG_BITS)
    (hab : wa.idle ≤ wb.idle) :
    parseLine (main wa).2.stdout = some wa.idle ∧
    parseLine (main wb).2.stdout = some wb.idle ∧
    (∀ pa pb, parseLine (main wa).2.stdout = some pa →
      parseLine (main wb).2.stdout = some pb → pa ≤ pb) ∧
    (wa.idle = wb.idle → (main wa).2.stdout = (main wb).2.stdout) ∧
    ((main wa).2.stdout = (main wb).2.stdout → wa.idle = wb.idle) := by
  have hpa : parseLine (main wa).2.stdout = some wa.idle := by
    rw [main_success wa hda hia hqa, Nat.mod_eq_of_lt ha]
    exact parseLine_of_numeral _ _ _ (fmt_lu_spec _ ha) (data_append_newline _)
  have hpb : parseLine (main wb).2.stdout = some wb.idle := by
    rw [main_success wb hdb hib hqb, Nat.mod_eq_of_lt hb]
    exact parseLine_of_numeral _ _ _ (fmt_lu_spec _ hb) (data_append_newline _)
  refine ⟨hpa, hpb, ?_, ?_, ?_⟩
  · intro pa pb h1 h2
    rw [hpa] at h1
    rw [hpb] at h2
    rw [← Option.some.inj h1, ← Option.some.inj h2]
    exact hab
  · intro h
    rw [main_success wa hda hia hqa, main_success wb hdb hib hqb, h]
  · intro h
    rw [h, hpb] at hpa
    exact (Option.some.inj hpa).symm

theorem C9_output_faithful_witness :
    parseLine (main ⟨5, 6, 7, 1, 1500⟩).2.stdout = some 1500 ∧
    parseLine (main ⟨8, 9, 3, 2, 1500000⟩).2.stdout = some 1500000 ∧
    (∀ pa pb, parseLine (main ⟨5, 6, 7, 1, 1500⟩).2.stdout = some pa →
      parseLine (main ⟨8, 9, 3, 2, 1500000⟩).2.stdout = some pb → pa ≤ pb) ∧
    ((1500 : Nat) = 1500000 →
      (main ⟨5, 6, 7, 1, 1500⟩).2.stdout = (main ⟨8, 9, 3, 2, 1500000⟩).2.stdout) ∧
    ((main ⟨5, 6, 7, 1, 1500⟩).2.stdout = (main ⟨8, 9, 3, 2, 1500000⟩).2.stdout →
      (1500 : Nat) = 1500000) :=
  C9_output_faithful ⟨5, 6, 7, 1, 1500⟩ ⟨8, 9, 3, 2, 1500000⟩
    (by decide) (by decide) (by decide) (by decide) (by decide) (by decide)
    (by decide) (by decide) (by decide)

/-- C10: no resource is used after its release.  No event after
`XCloseDisplay(display)` hands that display to a collaborator and no event
after `XFree(info)` reads or passes that record; when the idle field is read
the read comes before `XFree(info)`; and when both resources are released
`XFree(info)` comes before `XCloseDisplay(display)`. -/
theorem C10_no_use_after_release (w : World) :
    noUseAfterRelease (main w).2.trace = true ∧
    (w.display = NULL ∨ w.info = NULL ∨ w.status = 0 ∨
      occursBefore (.readIdle w.info) (.XFree w.info) (main w).2.trace = true) ∧
    (w.display = NULL ∨ w.info = NULL ∨
      occursBefore (.XFree w.info) (.XCloseDisplay w.display) (main w).2.trace = true) := by
  by_cases hd : w.display = NULL
  · rw [main_open_fail w hd]; simp [hd, noUseAfterRelease]
  · by_cases hi : w.info = NULL
    · rw [main_alloc_fail w hd hi]; simp [hd, hi, noUseAfterRelease]
    · by_cases hq : w.status = 0
      · rw [main_query_fail w hd hi hq]
        simp [hd, hi, hq, noUseAfterRelease, occursBefore, Event.usesDisplay, Event.usesInfo]
      · rw [main_success w hd hi hq]
        simp [hd, hi, hq, noUseAfterRelease, occursBefore, Event.usesDisplay, Event.usesInfo]

end Xidle
